import Mathlib

/-!
Shallow embedding of the navigation layouts of a small Expo Router
application.  The application consists of three layout files:

* `app/_layout.tsx` — the root stack navigator (`RootLayout`);
* `app/(tabs)/_layout.tsx` — the bottom-tab navigator (`TabRoots`) with three
  tabs, each declaring a title and a `tabBarIcon` rendering function;
* `app/(drawer)/_layout.tsx` — the drawer navigator (`DrawerRootLayout`)
  wrapped in a `GestureHandlerRootView`, plus the initial screen component
  (`Index`) which renders a greeting and a link.

Inline style objects are embedded as a `Style` record of optional fields;
rendered elements are embedded as the inductive tree `RNNode`.
-/

namespace Spec2Proof

/-- `StyleSheet.hairlineWidth` is a platform constant; all other border
widths in the source are literal numbers. -/
inductive BorderWidth where
  | hairline
  | px (w : Int)
deriving DecidableEq, Repr

/-- Optional-field record for the inline style objects occurring in the
source (`{ flex: 1 }`, the circular icon container, the centered view). -/
structure Style where
  flex : Option Int := none
  width : Option Int := none
  height : Option Int := none
  borderRadius : Option Int := none
  backgroundColor : Option String := none
  bottom : Option Int := none
  justifyContent : Option String := none
  alignItems : Option String := none
  borderColor : Option String := none
  borderWidth : Option BorderWidth := none
deriving DecidableEq, Repr

/-- Rendered element trees: `View`, `Text`, `FontAwesome` glyphs and
`Link` elements, as used by the screens and icon functions. -/
inductive RNNode where
  | view (style : Style) (children : List RNNode)
  | text (content : String)
  | fontAwesome (size : Int) (name : String) (color : String)
  | link (href : String) (label : String)

/-- Options object passed to a `Stack.Screen` / stack-level `screenOptions`. -/
structure ScreenOptions where
  title : Option String := none
  headerShown : Option Bool := none
deriving DecidableEq, Repr

/-- One `Stack.Screen` child declaration. -/
structure StackScreen where
  name : String
  options : ScreenOptions := {}
deriving DecidableEq, Repr

/-- A `Stack` navigator: stack-level `screenOptions` plus its declared
`Stack.Screen` children, in source order. -/
structure StackConfig where
  screenOptions : ScreenOptions := {}
  screens : List StackScreen
deriving DecidableEq, Repr

/-- `app/_layout.tsx`: the root stack navigator.  It sets
`screenOptions={{ headerShown: false }}` and declares the children
`(tabs)`, `index` (title "Home") and `about/index` (title "About Us"). -/
def RootLayout : StackConfig :=
  { screenOptions := { headerShown := some false }
    screens :=
      [ { name := "(tabs)" }
      , { name := "index", options := { title := some "Home" } }
      , { name := "about/index", options := { title := some "About Us" } } ] }

/-- The props object the framework passes to a `tabBarIcon` function:
the current tint color and a suggested size. -/
structure IconProps where
  color : String
  size : Int
deriving DecidableEq, Repr

/-- Options object of a `Tabs.Screen`: a title, the list of prop names the
`tabBarIcon` function destructures in its parameter pattern, and the icon
rendering function itself. -/
structure TabOptions where
  title : Option String := none
  iconParams : List String := []
  tabBarIcon : Option (IconProps → RNNode) := none

/-- One `Tabs.Screen` child declaration. -/
structure TabScreen where
  name : String
  options : TabOptions := {}

/-- A `Tabs` navigator with its declared screens in source order. -/
structure TabsConfig where
  screens : List TabScreen

/-- Icon function of the `index` tab:
`({ color }) => <FontAwesome size={28} name="home" color={color} />`. -/
def indexTabIcon (p : IconProps) : RNNode :=
  .fontAwesome 28 "home" p.color

/-- Icon function of the `aboutus` tab:
`({ color, size }) => <View style={...}><FontAwesome size={28} name="globe"
color={color} /></View>` with the fixed 60×60 circular, elevated container. -/
def aboutusTabIcon (p : IconProps) : RNNode :=
  .view
    { width := some 60
      height := some 60
      borderRadius := some 50
      backgroundColor := some "white"
      bottom := some 15
      justifyContent := some "center"
      alignItems := some "center"
      borderColor := some "gray"
      borderWidth := some .hairline }
    [ .fontAwesome 28 "globe" p.color ]

/-- Icon function of the `profile` tab:
`({ color }) => <FontAwesome size={28} name="user-circle-o" color={color} />`. -/
def profileTabIcon (p : IconProps) : RNNode :=
  .fontAwesome 28 "user-circle-o" p.color

/-- `app/(tabs)/_layout.tsx`: the bottom tab navigator with its three
declared tabs in source order. -/
def TabRoots : TabsConfig :=
  { screens :=
      [ { name := "index"
          options :=
            { title := some "Home"
              iconParams := ["color"]
              tabBarIcon := some indexTabIcon } }
      , { name := "aboutus"
          options :=
            { title := some "About us"
              iconParams := ["color", "size"]
              tabBarIcon := some aboutusTabIcon } }
      , { name := "profile"
          options :=
            { title := some "Profile"
              iconParams := ["color"]
              tabBarIcon := some profileTabIcon } } ] }

/-- One `Drawer.Screen` child declaration. -/
structure DrawerScreen where
  name : String
  options : ScreenOptions := {}
deriving DecidableEq, Repr

/-- A `Drawer` navigator with its declared screens in source order. -/
structure DrawerConfig where
  screens : List DrawerScreen
deriving DecidableEq, Repr

/-- Layout trees for navigator layouts: a `GestureHandlerRootView`
wrapper node or a drawer navigator node. -/
inductive LayoutNode where
  | gestureHandlerRootView (style : Style) (children : List LayoutNode)
  | drawerNav (config : DrawerConfig)

/-- `app/(drawer)/_layout.tsx`: the drawer navigator, declaring screens
`index` (title "My home page") and `setting` (title "Settings"), nested
inside a `GestureHandlerRootView` with `style={{ flex: 1 }}`. -/
def DrawerRootLayout : LayoutNode :=
  .gestureHandlerRootView { flex := some 1 }
    [ .drawerNav
        { screens :=
            [ { name := "index", options := { title := some "My home page" } }
            , { name := "setting", options := { title := some "Settings" } } ] } ]

/-- `app/index.tsx`: the initial screen.  A centered view containing the
greeting text and a link to the literal route `about`. -/
def Index : RNNode :=
  .view
    { flex := some 1
      justifyContent := some "center"
      alignItems := some "center" }
    [ .text "Hello Mubarak Ansari"
    , .link "about" "Go to About" ]

/-- The effective header visibility of a stack screen: the screen-level
`headerShown` option if present, otherwise the stack-level default,
otherwise the framework default `true`. -/
def effectiveHeaderShown (stack : StackConfig) (s : StackScreen) : Bool :=
  s.options.headerShown.getD (stack.screenOptions.headerShown.getD true)

/-- The style of the outermost container of a rendered node, when that
node is a `View`. -/
def containerStyle : RNNode → Option Style
  | .view st _ => some st
  | _ => none

/-- A style describes a circular container when it fixes equal width and
height and a border radius of at least half that side (the renderer clamps
larger radii to a circle). -/
def Style.isCircular (st : Style) : Bool :=
  match st.width, st.height, st.borderRadius with
  | some w, some h, some r => w == h && 2 * r ≥ w
  | _, _, _ => false

mutual

/-- All `FontAwesome` glyph sizes occurring in a rendered tree, in
rendering order. -/
def glyphSizes : RNNode → List Int
  | .view _ children => glyphSizesList children
  | .text _ => []
  | .fontAwesome size _ _ => [size]
  | .link _ _ => []

/-- All `FontAwesome` glyph sizes occurring in a list of rendered trees. -/
def glyphSizesList : List RNNode → List Int
  | [] => []
  | c :: cs => glyphSizes c ++ glyphSizesList cs

end

mutual

/-- All drawer navigator configurations occurring in a layout tree. -/
def drawerConfigs : LayoutNode → List DrawerConfig
  | .gestureHandlerRootView _ children => drawerConfigsList children
  | .drawerNav cfg => [cfg]

/-- All drawer navigator configurations occurring in a list of layout
trees. -/
def drawerConfigsList : List LayoutNode → List DrawerConfig
  | [] => []
  | c :: cs => drawerConfigs c ++ drawerConfigsList cs

end

/-- Whether a layout tree's root is a `GestureHandlerRootView`, and if so
with which style. -/
def gestureRootStyle : LayoutNode → Option Style
  | .gestureHandlerRootView st _ => some st
  | .drawerNav _ => none

mutual

/-- All text contents occurring in a rendered tree, in rendering order. -/
def renderedTexts : RNNode → List String
  | .view _ children => renderedTextsList children
  | .text content => [content]
  | .fontAwesome _ _ _ => []
  | .link _ _ => []

/-- All text contents occurring in a list of rendered trees. -/
def renderedTextsList : List RNNode → List String
  | [] => []
  | c :: cs => renderedTexts c ++ renderedTextsList cs

end

mutual

/-- All links (target route, visible label) occurring in a rendered tree,
in rendering order. -/
def renderedLinks : RNNode → List (String × String)
  | .view _ children => renderedLinksList children
  | .text _ => []
  | .fontAwesome _ _ _ => []
  | .link href label => [(href, label)]

/-- All links occurring in a list of rendered trees. -/
def renderedLinksList : List RNNode → List (String × String)
  | [] => []
  | c :: cs => renderedLinks c ++ renderedLinksList cs

end

/-- Claim C1, as stated, is false: the root stack navigator does not
declare the drawer group as a child; `"(drawer)"` is not among the
declared stack entry names. -/
theorem C1_no_drawer_entry :
    "(drawer)" ∉ RootLayout.screens.map (fun s => s.name) := by
  decide

/-- Claim C1 (amended): the root stack navigator declares exactly three
stack entries — the tab group `(tabs)`, the initial screen route `index`,
and the standalone route `about/index` — in that order; the drawer group
is not mounted as a child of the root stack. -/
theorem C1_root_stack_entries :
    RootLayout.screens.map (fun s => s.name) = ["(tabs)", "index", "about/index"] := by
  decide

/-- Claim C2: the drawer group declares exactly two destinations, with
display titles "My home page" and "Settings", and each destination's
display title is distinct from its underlying route name. -/
theorem C2_drawer_destinations :
    ((drawerConfigs DrawerRootLayout).map fun c =>
      c.screens.map fun s => (s.name, s.options.title)) =
        [[("index", some "My home page"), ("setting", some "Settings")]] ∧
    ((drawerConfigs DrawerRootLayout).all fun c =>
      c.screens.all fun s => s.options.title != some s.name) = true := by
  constructor
  · rfl
  · rfl

/-- Claim C3: for every tint color (and size) passed to the `aboutus`
tab's icon function, the returned visual is a container whose width and
height are both fixed at 60, whose shape is circular, and which is offset
upward (positive `bottom`); the container style is the same for all
inputs, hence independent of the color. -/
theorem C3_aboutus_icon_container (c : String) (s : Int) :
    containerStyle (aboutusTabIcon ⟨c, s⟩) = containerStyle (aboutusTabIcon ⟨"", 0⟩) ∧
    ∃ st, containerStyle (aboutusTabIcon ⟨c, s⟩) = some st ∧
      st.width = some 60 ∧ st.height = some 60 ∧ st.isCircular = true ∧
      ∃ b, st.bottom = some b ∧ 0 < b := by
  refine ⟨rfl, _, rfl, rfl, rfl, by decide, 15, rfl, by decide⟩

/-- Claim C3, instantiated at concrete inputs. -/
theorem C3_witness :
    containerStyle (aboutusTabIcon ⟨"red", 24⟩) = containerStyle (aboutusTabIcon ⟨"", 0⟩) ∧
    ∃ st, containerStyle (aboutusTabIcon ⟨"red", 24⟩) = some st ∧
      st.width = some 60 ∧ st.height = some 60 ∧ st.isCircular = true ∧
      ∃ b, st.bottom = some b ∧ 0 < b :=
  C3_aboutus_icon_container "red" 24

/-- Claim C4: the three tab icon functions are deterministic — equal
inputs produce identical outputs.  They are total functions into
`RNNode`, so no side effects and no error path exist in the embedding. -/
theorem C4_icon_functions_deterministic (p q : IconProps) (h : p = q) :
    indexTabIcon p = indexTabIcon q ∧
    aboutusTabIcon p = aboutusTabIcon q ∧
    profileTabIcon p = profileTabIcon q := by
  subst h
  exact ⟨rfl, rfl, rfl⟩

/-- Claim C4, instantiated at a concrete input. -/
theorem C4_witness :
    (⟨"blue", 28⟩ : IconProps) = ⟨"blue", 28⟩ ∧
    (indexTabIcon ⟨"blue", 28⟩ = indexTabIcon ⟨"blue", 28⟩ ∧
     aboutusTabIcon ⟨"blue", 28⟩ = aboutusTabIcon ⟨"blue", 28⟩ ∧
     profileTabIcon ⟨"blue", 28⟩ = profileTabIcon ⟨"blue", 28⟩) :=
  ⟨rfl, C4_icon_functions_deterministic ⟨"blue", 28⟩ ⟨"blue", 28⟩ rfl⟩

/-- Claim C5: the initial screen renders exactly the greeting text
"Hello Mubarak Ansari" and exactly one link, whose target is the literal
route `about` and whose visible label is "Go to About". -/
theorem C5_initial_screen :
    renderedTexts Index = ["Hello Mubarak Ansari"] ∧
    renderedLinks Index = [("about", "Go to About")] := by
  constructor
  · rfl
  · rfl

/-- Claim C6: the root stack sets `headerShown` to `false` at the stack
level, and every screen declared in the root stack has its effective
header hidden. -/
theorem C6_headers_hidden (s : StackScreen) (h : s ∈ RootLayout.screens) :
    RootLayout.screenOptions.headerShown = some false ∧
    effectiveHeaderShown RootLayout s = false := by
  refine ⟨rfl, ?_⟩
  fin_cases h <;> rfl

/-- Claim C6, instantiated at the concrete screen `index`. -/
theorem C6_witness :
    (⟨"index", { title := some "Home" }⟩ : StackScreen) ∈ RootLayout.screens ∧
    (RootLayout.screenOptions.headerShown = some false ∧
     effectiveHeaderShown RootLayout ⟨"index", { title := some "Home" }⟩ = false) :=
  ⟨by decide, C6_headers_hidden ⟨"index", { title := some "Home" }⟩ (by decide)⟩

/-- Claim C7: the tab group declares exactly three destinations, named
`index`, `aboutus`, `profile` in that order; each declares a title and an
icon function; the `aboutus` tab's icon function destructures both color
and size, the other two destructure only the color. -/
theorem C7_tab_destinations :
    TabRoots.screens.map (fun s => s.name) = ["index", "aboutus", "profile"] ∧
    (TabRoots.screens.all fun s =>
      s.options.title.isSome && s.options.tabBarIcon.isSome) = true ∧
    TabRoots.screens.map (fun s => s.options.iconParams) =
      [["color"], ["color", "size"], ["color"]] := by
  refine ⟨rfl, rfl, rfl⟩

/-- Claim C8: the drawer layout's root node is a gesture-handling root
wrapper with `flex: 1` (filling the available space), and the drawer
navigator with both of its screens occurs nested inside it. -/
theorem C8_drawer_inside_gesture_root :
    ((gestureRootStyle DrawerRootLayout).map fun st => st.flex) = some (some 1) ∧
    ((drawerConfigs DrawerRootLayout).map fun c =>
      c.screens.map fun s => s.name) = [["index", "setting"]] := by
  constructor
  · rfl
  · rfl

/-- Claim C9: the `aboutus` tab's icon function ignores its size
parameter — for a fixed color, any two sizes give identical output. -/
theorem C9_aboutus_icon_ignores_size (c : String) (s₁ s₂ : Int) :
    aboutusTabIcon ⟨c, s₁⟩ = aboutusTabIcon ⟨c, s₂⟩ := rfl

/-- Claim C9, instantiated at concrete inputs. -/
theorem C9_witness :
    aboutusTabIcon ⟨"gray", 20⟩ = aboutusTabIcon ⟨"gray", 99⟩ :=
  C9_aboutus_icon_ignores_size "gray" 20 99

/-- Claim C10: every one of the three tab icon functions draws its glyph
at the constant size 28, for all color and size inputs. -/
theorem C10_glyph_size_constant (c : String) (s : Int) :
    glyphSizes (indexTabIcon ⟨c, s⟩) = [28] ∧
    glyphSizes (aboutusTabIcon ⟨c, s⟩) = [28] ∧
    glyphSizes (profileTabIcon ⟨c, s⟩) = [28] := by
  refine ⟨rfl, rfl, rfl⟩

/-- Claim C10, instantiated at concrete inputs. -/
theorem C10_witness :
    glyphSizes (indexTabIcon ⟨"black", 20⟩) = [28] ∧
    glyphSizes (aboutusTabIcon ⟨"black", 20⟩) = [28] ∧
    glyphSizes (profileTabIcon ⟨"black", 20⟩) = [28] :=
  C10_glyph_size_constant "black" 20

end Spec2Proof
